import Mathlib

/-!
Verification development for the restaurant website builder repository.

Embedded components, translated from the source:
- the prompt-enhancement edge function
  (supabase/functions/generate-image/index.ts);
- the website configuration hook (src/hooks/useRestaurantWebsite.tsx);
- the public site renderer (src/pages/RestaurantSite.tsx) together with the
  SQL routine get_public_website from the migration shipped with the edge
  function.

Strings are modelled as Lean strings; JavaScript string helpers
(toLowerCase, includes-style regex tests of literal alternatives,
startsWith, split) are embedded as executable functions on lists of
characters. Lowercasing is modelled on the ASCII range, which covers every
character the classification keywords can match.
-/

/-! ## String utilities (embedding of the JavaScript string operations) -/

/-- ASCII lowercasing of one character, the fragment of
JavaScript toLowerCase that the keyword matching can observe. -/
def charLower (c : Char) : Char :=
  if 'A' ≤ c ∧ c ≤ 'Z' then Char.ofNat (c.toNat + 32) else c

/-- Embedding of JavaScript toLowerCase. -/
def lowerStr (s : String) : String := ⟨s.data.map charLower⟩

/-- Does the needle occur as a contiguous run inside the haystack? -/
def containsSub (needle : List Char) : List Char → Bool
  | [] => needle.isEmpty
  | c :: t => needle.isPrefixOf (c :: t) || containsSub needle t

/-- String form of containsSub: haystack contains needle. -/
def containsStr (haystack needle : String) : Bool :=
  containsSub needle.data haystack.data

/-- Embedding of JavaScript String.startsWith. -/
def startsWithStr (s pre : String) : Bool :=
  pre.data.isPrefixOf s.data

/-- A regex of the form a|b|c over literal words, tested against s:
true when some alternative occurs in s. -/
def testAny (kws : List String) (s : String) : Bool :=
  kws.any (fun kw => containsStr s kw)

/-- Embedding of JavaScript split on a one-character separator:
splitChar sep s gives the separator-free fields, keeping empty fields,
exactly as s.split(sep) does. -/
def splitChar (sep : Char) : List Char → List (List Char)
  | [] => [[]]
  | c :: t =>
    let r := splitChar sep t
    if c = sep then [] :: r
    else
      match r with
      | [] => [[c]]
      | h :: t2 => (c :: h) :: t2

/-- Embedding of the JavaScript idiom (x || d) for an optional string:
undefined and the empty string are falsy and give the default. -/
def jsOrDefault (o : Option String) (d : String) : String :=
  match o with
  | none => d
  | some s => if s = "" then d else s

/-! ## Prompt enhancer: classification predicates
(supabase/functions/generate-image/index.ts, lines 29-34) -/

/-- Regex art|painting|drawing|sketch|illustration|cartoon|anime|watercolor|oil painting|abstract applied to the lowercased prompt. -/
def isArtistic (s : String) : Bool :=
  testAny ["art", "painting", "drawing", "sketch", "illustration", "cartoon",
    "anime", "watercolor", "oil painting", "abstract"] s

/-- Regex photo|photograph|realistic|real|portrait|landscape|nature. -/
def isPhoto (s : String) : Bool :=
  testAny ["photo", "photograph", "realistic", "real", "portrait",
    "landscape", "nature"] s

/-- Regex food|dish|meal|recipe|cuisine|restaurant|plat|repas|nourriture. -/
def isFood (s : String) : Bool :=
  testAny ["food", "dish", "meal", "recipe", "cuisine", "restaurant",
    "plat", "repas", "nourriture"] s

/-- Regex logo|icon|brand|emblem|badge. -/
def isLogo (s : String) : Bool :=
  testAny ["logo", "icon", "brand", "emblem", "badge"] s

/-- Regex 3d|render|cgi|digital art. -/
def is3D (s : String) : Bool :=
  testAny ["3d", "render", "cgi", "digital art"] s

/-- Regex minimal|simple|clean|flat. -/
def isMinimal (s : String) : Bool :=
  testAny ["minimal", "simple", "clean", "flat"] s

/-! ## Prompt enhancer: enhancePrompt
(supabase/functions/generate-image/index.ts, lines 25-88) -/

/-- Straight translation of enhancePrompt: classify the lowercased prompt
with the six predicates, pick the style pair through the if/else-if chain
of the source (English chain when lang is exactly en, French chain
otherwise), and wrap the original prompt. -/
def enhancePrompt (userPrompt : String) (lang : String) : String :=
  let lowercasePrompt := lowerStr userPrompt
  let isArt := isArtistic lowercasePrompt
  let isPho := isPhoto lowercasePrompt
  let isFoo := isFood lowercasePrompt
  let isLog := isLogo lowercasePrompt
  let is3d := is3D lowercasePrompt
  let isMin := isMinimal lowercasePrompt
  let styles : String × String :=
    if lang = "en" then
      if isArt then
        ("Beautiful artistic creation, masterful technique: ",
         ". Rich details, expressive style, museum quality artwork.")
      else if isLog then
        ("Professional logo design, clean vector style: ",
         ". Modern, memorable, scalable design with perfect symmetry.")
      else if is3d then
        ("High-quality 3D render, cinematic lighting: ",
         ". Octane render quality, realistic materials, dramatic composition.")
      else if isMin then
        ("Clean minimal design: ",
         ". Simple, elegant, balanced composition with purposeful whitespace.")
      else if isFoo then
        ("Professional food photography, appetizing presentation: ",
         ". Gourmet styling, perfect lighting, mouth-watering details, 8K quality.")
      else if isPho then
        ("Professional photography, ultra high resolution: ",
         ". Perfect lighting, sharp focus, vivid colors, 8K quality.")
      else
        ("High quality, detailed image: ",
         ". Professional quality, vivid colors, excellent composition, 4K resolution.")
    else
      if isArt then
        ("Belle création artistique, technique maîtrisée: ",
         ". Détails riches, style expressif, qualité musée.")
      else if isLog then
        ("Design de logo professionnel, style vectoriel épuré: ",
         ". Moderne, mémorable, design scalable avec symétrie parfaite.")
      else if is3d then
        ("Rendu 3D haute qualité, éclairage cinématique: ",
         ". Qualité Octane render, matériaux réalistes, composition dramatique.")
      else if isMin then
        ("Design minimaliste épuré: ",
         ". Simple, élégant, composition équilibrée avec espaces blancs intentionnels.")
      else if isFoo then
        ("Photographie culinaire professionnelle, présentation appétissante: ",
         ". Style gastronomique, éclairage parfait, détails savoureux, qualité 8K.")
      else if isPho then
        ("Photographie professionnelle, ultra haute résolution: ",
         ". Éclairage parfait, mise au point nette, couleurs vives, qualité 8K.")
      else
        ("Image de haute qualité, détaillée: ",
         ". Qualité professionnelle, couleurs vives, excellente composition, résolution 4K.")
  styles.1 ++ userPrompt ++ styles.2

/-- The handler computes enhancePrompt(prompt, language || "fr")
(line 90 of the edge function). -/
def enhanceRequestPrompt (p : String) (language : Option String) : String :=
  enhancePrompt p (jsOrDefault language "fr")

/-! ## Prompt enhancer: spec-side category and template tables -/

/-- The seven style buckets of the specification. -/
inductive StyleCategory where
  | artistic | logo | threeD | minimal | food | photo | generic
deriving DecidableEq, Repr

/-- Classification by the fixed precedence of the specification:
artistic before logo before 3D before minimal before food before photo,
with the generic fallback last. Applied to the lowercased prompt. -/
def selectCategory (l : String) : StyleCategory :=
  if isArtistic l then .artistic
  else if isLogo l then .logo
  else if is3D l then .threeD
  else if isMinimal l then .minimal
  else if isFood l then .food
  else if isPhoto l then .photo
  else .generic

/-- The English template pair for each category. -/
def enTemplate : StyleCategory → String × String
  | .artistic =>
      ("Beautiful artistic creation, masterful technique: ",
       ". Rich details, expressive style, museum quality artwork.")
  | .logo =>
      ("Professional logo design, clean vector style: ",
       ". Modern, memorable, scalable design with perfect symmetry.")
  | .threeD =>
      ("High-quality 3D render, cinematic lighting: ",
       ". Octane render quality, realistic materials, dramatic composition.")
  | .minimal =>
      ("Clean minimal design: ",
       ". Simple, elegant, balanced composition with purposeful whitespace.")
  | .food =>
      ("Professional food photography, appetizing presentation: ",
       ". Gourmet styling, perfect lighting, mouth-watering details, 8K quality.")
  | .photo =>
      ("Professional photography, ultra high resolution: ",
       ". Perfect lighting, sharp focus, vivid colors, 8K quality.")
  | .generic =>
      ("High quality, detailed image: ",
       ". Professional quality, vivid colors, excellent composition, 4K resolution.")

/-- The French template pair for each category. -/
def frTemplate : StyleCategory → String × String
  | .artistic =>
      ("Belle création artistique, technique maîtrisée: ",
       ". Détails riches, style expressif, qualité musée.")
  | .logo =>
      ("Design de logo professionnel, style vectoriel épuré: ",
       ". Moderne, mémorable, design scalable avec symétrie parfaite.")
  | .threeD =>
      ("Rendu 3D haute qualité, éclairage cinématique: ",
       ". Qualité Octane render, matériaux réalistes, composition dramatique.")
  | .minimal =>
      ("Design minimaliste épuré: ",
       ". Simple, élégant, composition équilibrée avec espaces blancs intentionnels.")
  | .food =>
      ("Photographie culinaire professionnelle, présentation appétissante: ",
       ". Style gastronomique, éclairage parfait, détails savoureux, qualité 8K.")
  | .photo =>
      ("Photographie professionnelle, ultra haute résolution: ",
       ". Éclairage parfait, mise au point nette, couleurs vives, qualité 8K.")
  | .generic =>
      ("Image de haute qualité, détaillée: ",
       ". Qualité professionnelle, couleurs vives, excellente composition, résolution 4K.")

/-- Template pair selected for a category in a given language. -/
def categoryTemplate (c : StyleCategory) (lang : String) : String × String :=
  if lang = "en" then enTemplate c else frTemplate c

/-- All seven English template pairs. -/
def enTemplates : List (String × String) :=
  [enTemplate .artistic, enTemplate .logo, enTemplate .threeD,
   enTemplate .minimal, enTemplate .food, enTemplate .photo,
   enTemplate .generic]

/-- All seven French template pairs. -/
def frTemplates : List (String × String) :=
  [frTemplate .artistic, frTemplate .logo, frTemplate .threeD,
   frTemplate .minimal, frTemplate .food, frTemplate .photo,
   frTemplate .generic]

example : isArtistic (lowerStr "A Painting of a cat") = true := by decide
example : selectCategory (lowerStr "minimal logo for a bakery") = .logo := by decide
example : enhancePrompt "a dish" "en" =
    "Professional food photography, appetizing presentation: a dish. Gourmet styling, perfect lighting, mouth-watering details, 8K quality." := by
  decide

/-! ## Helper lemmas for the prompt enhancer -/

theorem isPrefixOf_append_self (a b : List Char) : a.isPrefixOf (a ++ b) = true := by
  induction a with
  | nil => simp [List.isPrefixOf]
  | cons c t ih => simp [List.isPrefixOf, ih]

theorem startsWithStr_append (a b : String) : startsWithStr (a ++ b) a = true := by
  unfold startsWithStr
  rw [show (a ++ b).data = a.data ++ b.data from rfl]
  exact isPrefixOf_append_self _ _

/-- The if/else-if chain of enhancePrompt computes exactly the template of
the category selected by the fixed precedence, in the requested language. -/
theorem enhancePrompt_eq_template (p lang : String) :
    enhancePrompt p lang =
      (categoryTemplate (selectCategory (lowerStr p)) lang).1 ++ p ++
      (categoryTemplate (selectCategory (lowerStr p)) lang).2 := by
  unfold enhancePrompt selectCategory categoryTemplate enTemplate frTemplate
  by_cases hl : lang = "en" <;>
    cases h1 : isArtistic (lowerStr p) <;>
    cases h2 : isLogo (lowerStr p) <;>
    cases h3 : is3D (lowerStr p) <;>
    cases h4 : isMinimal (lowerStr p) <;>
    cases h5 : isFood (lowerStr p) <;>
    cases h6 : isPhoto (lowerStr p) <;>
    simp [h1, h2, h3, h4, h5, h6, hl]

theorem categoryTemplate_en_mem (c : StyleCategory) :
    categoryTemplate c "en" ∈ enTemplates ∧ categoryTemplate c "en" ∉ frTemplates := by
  cases c <;> exact ⟨by decide, by decide⟩

theorem categoryTemplate_ne_en_mem (l : String) (hl : ¬ l = "en") (c : StyleCategory) :
    categoryTemplate c l ∈ frTemplates ∧ categoryTemplate c l ∉ enTemplates := by
  unfold categoryTemplate
  rw [if_neg hl]
  cases c <;> exact ⟨by decide, by decide⟩

theorem jsOrDefault_ne_en (o : Option String) (h : ¬ o = some "en") :
    ¬ jsOrDefault o "fr" = "en" := by
  cases o with
  | none => decide
  | some s =>
    rw [show jsOrDefault (some s) "fr" = if s = "" then "fr" else s from rfl]
    by_cases hs : s = ""
    · rw [if_pos hs]; decide
    · rw [if_neg hs]
      intro hc
      exact h (by rw [hc])

/-! ## Claim C1 -/

/-- C1: enhancePrompt classifies the prompt with the six independent boolean
regex predicates and selects exactly one style template by the fixed
precedence artistic, then logo, then 3D, then minimal, then food, then
photo, then the generic fallback; every prompt matching an artistic keyword
gets the artistic-style template as its leading text, and a prompt matching
both the logo and minimal keywords but no artistic keyword resolves to the
logo template. -/
theorem enhancePrompt_classification :
    (∀ p lang : String, enhancePrompt p lang =
      (categoryTemplate (selectCategory (lowerStr p)) lang).1 ++ p ++
      (categoryTemplate (selectCategory (lowerStr p)) lang).2)
    ∧ (∀ p lang : String, isArtistic (lowerStr p) = true →
        startsWithStr (enhancePrompt p lang)
          (categoryTemplate .artistic lang).1 = true)
    ∧ (∀ p lang : String, isArtistic (lowerStr p) = false →
        isLogo (lowerStr p) = true → isMinimal (lowerStr p) = true →
        enhancePrompt p lang =
          (categoryTemplate .logo lang).1 ++ p ++ (categoryTemplate .logo lang).2) := by
  refine ⟨fun p lang => enhancePrompt_eq_template p lang, ?_, ?_⟩
  · intro p lang hart
    rw [enhancePrompt_eq_template p lang]
    have hsel : selectCategory (lowerStr p) = .artistic := by
      unfold selectCategory
      rw [if_pos hart]
    rw [hsel, show (categoryTemplate StyleCategory.artistic lang).1 ++ p ++
      (categoryTemplate StyleCategory.artistic lang).2 =
      (categoryTemplate StyleCategory.artistic lang).1 ++
      (p ++ (categoryTemplate StyleCategory.artistic lang).2) from by
        rw [String.append_assoc]]
    exact startsWithStr_append _ _
  · intro p lang hart hlogo _
    rw [enhancePrompt_eq_template p lang]
    have hsel : selectCategory (lowerStr p) = .logo := by
      unfold selectCategory
      rw [if_neg (by rw [hart]; exact Bool.false_ne_true), if_pos hlogo]
    rw [hsel]

/-- Witness for C1 at the prompts painting and minimal logo. -/
theorem enhancePrompt_classification_witness :
    (enhancePrompt "painting" "en" =
      (categoryTemplate (selectCategory (lowerStr "painting")) "en").1 ++ "painting" ++
      (categoryTemplate (selectCategory (lowerStr "painting")) "en").2)
    ∧ (isArtistic (lowerStr "painting") = true ∧
       startsWithStr (enhancePrompt "painting" "en")
         (categoryTemplate .artistic "en").1 = true)
    ∧ (isArtistic (lowerStr "minimal logo") = false ∧
       isLogo (lowerStr "minimal logo") = true ∧
       isMinimal (lowerStr "minimal logo") = true ∧
       enhancePrompt "minimal logo" "fr" =
         (categoryTemplate .logo "fr").1 ++ "minimal logo" ++
         (categoryTemplate .logo "fr").2) :=
  ⟨enhancePrompt_classification.1 "painting" "en",
   ⟨by decide, enhancePrompt_classification.2.1 "painting" "en" (by decide)⟩,
   by decide, by decide, by decide,
   enhancePrompt_classification.2.2 "minimal logo" "fr" (by decide) (by decide) (by decide)⟩

/-! ## Claim C2 -/

/-- C2: the enhanced prompt equals stylePre concatenated with the original
prompt and styleSuf for the language-specific template pair of the selected
category; with language exactly en the pair is one of the English templates
and none of the French ones, and with any other language value, a missing
one included since it defaults to fr, the pair is one of the French
templates and none of the English ones. -/
theorem enhancePrompt_language_templates :
    ∀ (p : String) (language : Option String), ∃ t : String × String,
      enhanceRequestPrompt p language = t.1 ++ p ++ t.2 ∧
      (language = some "en" → t ∈ enTemplates ∧ t ∉ frTemplates) ∧
      (¬ language = some "en" → t ∈ frTemplates ∧ t ∉ enTemplates) := by
  intro p language
  refine ⟨categoryTemplate (selectCategory (lowerStr p)) (jsOrDefault language "fr"),
    enhancePrompt_eq_template p _, ?_, ?_⟩
  · intro hen
    rw [hen, show jsOrDefault (some "en") "fr" = "en" from by decide]
    exact categoryTemplate_en_mem _
  · intro hne
    exact categoryTemplate_ne_en_mem _ (jsOrDefault_ne_en language hne) _

/-- Witness for C2 at the prompt sunset, with the English language tag and
with a missing language tag. -/
theorem enhancePrompt_language_templates_witness :
    (∃ t : String × String,
      enhanceRequestPrompt "sunset" (some "en") = t.1 ++ "sunset" ++ t.2 ∧
      (some "en" = some "en" → t ∈ enTemplates ∧ t ∉ frTemplates) ∧
      (¬ some "en" = some "en" → t ∈ frTemplates ∧ t ∉ enTemplates))
    ∧ (∃ t : String × String,
      enhanceRequestPrompt "sunset" none = t.1 ++ "sunset" ++ t.2 ∧
      ((none : Option String) = some "en" → t ∈ enTemplates ∧ t ∉ frTemplates) ∧
      (¬ (none : Option String) = some "en" → t ∈ frTemplates ∧ t ∉ enTemplates)) :=
  ⟨enhancePrompt_language_templates "sunset" (some "en"),
   enhancePrompt_language_templates "sunset" none⟩

/-! ## Edge function: base64 extraction from the image URL
(supabase/functions/generate-image/index.ts, lines 141-145) -/

/-- Translation of the extraction step: when the URL starts with data: the
URL is split on commas and field 1 is taken, which is undefined (none here)
when the URL holds no second field; any other URL is returned unchanged. -/
def extractImageBase64 (imageUrl : String) : Option String :=
  if startsWithStr imageUrl "data:" then
    ((splitChar ',' imageUrl.data).map (fun l => String.mk l))[1]?
  else some imageUrl

/-- Reading of the claim, for comparison with the source definition above:
the whole substring after the first comma. -/
def afterFirstComma (s : String) : String :=
  String.mk ((s.data.dropWhile (fun c => ¬ c = ',')).drop 1)

theorem splitChar_no_sep (sep : Char) (l : List Char) (h : sep ∉ l) :
    splitChar sep l = [l] := by
  induction l with
  | nil => rfl
  | cons c t ih =>
    have hc : ¬ c = sep := fun hcc => h (hcc ▸ List.mem_cons_self c t)
    have ht : sep ∉ t := fun hm => h (List.mem_cons_of_mem _ hm)
    simp only [splitChar, if_neg hc, ih ht]

theorem splitChar_append_sep (sep : Char) (a b : List Char)
    (ha : sep ∉ a) (hb : sep ∉ b) :
    splitChar sep (a ++ sep :: b) = [a, b] := by
  induction a with
  | nil =>
    simp [splitChar, splitChar_no_sep sep b hb]
  | cons c t ih =>
    have hc : ¬ c = sep := fun hcc => ha (hcc ▸ List.mem_cons_self c t)
    have ht : sep ∉ t := fun hm => ha (List.mem_cons_of_mem _ hm)
    simp [splitChar, if_neg hc, ih ht]

/-! ## Claim C3 -/

/-- C3 counterexample: on a data: URL whose payload itself holds a comma,
the code keeps only the field between the first and the second comma, not
the whole substring after the first comma as the claim states. -/
theorem extractImageBase64_counterexample :
    startsWithStr "data:a,b,c" "data:" = true ∧
    extractImageBase64 "data:a,b,c" = some "b" ∧
    afterFirstComma "data:a,b,c" = "b,c" ∧
    ¬ extractImageBase64 "data:a,b,c" = some (afterFirstComma "data:a,b,c") :=
  ⟨by decide, by decide, by decide, by decide⟩

/-- C3 amended: if the URL starts with data: the handler returns the second
comma-separated field, which equals the substring after the first comma
whenever that substring holds no further comma (true of every base64
payload); the documented example data:image/png;base64,AAA= yields AAA=,
and a string that does not start with data: is returned unchanged. -/
theorem extractImageBase64_amended :
    (∀ pre post : String,
      startsWithStr (pre ++ "," ++ post) "data:" = true →
      ',' ∉ pre.data → ',' ∉ post.data →
      extractImageBase64 (pre ++ "," ++ post) = some post)
    ∧ (∀ u : String, startsWithStr u "data:" = false →
        extractImageBase64 u = some u)
    ∧ extractImageBase64 "data:image/png;base64,AAA=" = some "AAA=" := by
  refine ⟨?_, ?_, by decide⟩
  · intro pre post hs hpre hpost
    unfold extractImageBase64
    rw [if_pos hs]
    have hdata : (pre ++ "," ++ post).data = pre.data ++ ',' :: post.data := by
      rw [show (pre ++ "," ++ post).data = pre.data ++ [','] ++ post.data from rfl,
        List.append_assoc]
      rfl
    rw [hdata, splitChar_append_sep ',' pre.data post.data hpre hpost]
    rfl
  · intro u hu
    simp [extractImageBase64, hu]

/-- Witness for the amended C3 at the documented example, cut at its only
comma. -/
theorem extractImageBase64_amended_witness :
    startsWithStr ("data:image/png;base64" ++ "," ++ "AAA=") "data:" = true ∧
    ',' ∉ ("data:image/png;base64" : String).data ∧
    ',' ∉ ("AAA=" : String).data ∧
    extractImageBase64 ("data:image/png;base64" ++ "," ++ "AAA=") = some "AAA=" :=
  ⟨by decide, by decide, by decide,
   extractImageBase64_amended.1 "data:image/png;base64" "AAA="
     (by decide) (by decide) (by decide)⟩

/-! ## Edge function: request handler outcome
(supabase/functions/generate-image/index.ts, lines 14-170)

The handler is embedded as a pure function of the two external inputs it
branches on: the optional API credential from the environment and the
response of the external API call, abstracted to its HTTP status and the
optionally present image URL field of its JSON body. -/

/-- The external API response, abstracted to what the handler inspects. -/
structure ExternalResponse where
  status : Nat
  imageField : Option String
deriving DecidableEq, Repr

/-- JavaScript Response.ok: status in the range 200 to 299. -/
def responseOk (r : ExternalResponse) : Bool :=
  200 ≤ r.status && r.status < 300

/-- The JSON response produced by the edge function: HTTP status, the
success flag, and the optionally present imageBase64 and error fields
(JSON.stringify drops a field whose value is undefined). -/
structure EdgeResponse where
  status : Nat
  success : Bool
  imageBase64 : Option String
  error : Option String
deriving DecidableEq, Repr

/-- Translation of the handler body: missing or empty credential throws
before the network call (caught as a 500); a non-ok external status maps
429 and 402 to themselves and anything else to a 500 by the thrown
Lovable AI error; an ok response without a truthy image URL throws No
image generated (a 500); otherwise a 200 with success true carrying the
extracted base64 payload. -/
def handleGenerateImage (apiKey : Option String) (resp : ExternalResponse) : EdgeResponse :=
  match apiKey with
  | none =>
    { status := 500, success := false, imageBase64 := none,
      error := some "LOVABLE_API_KEY is not configured" }
  | some k =>
    if k = "" then
      { status := 500, success := false, imageBase64 := none,
        error := some "LOVABLE_API_KEY is not configured" }
    else if !responseOk resp then
      if resp.status = 429 then
        { status := 429, success := false, imageBase64 := none,
          error := some "Rate limit exceeded, please try again later." }
      else if resp.status = 402 then
        { status := 402, success := false, imageBase64 := none,
          error := some "Payment required, please add credits." }
      else
        { status := 500, success := false, imageBase64 := none,
          error := some ("Lovable AI error: " ++ toString resp.status) }
    else
      match resp.imageField with
      | none =>
        { status := 500, success := false, imageBase64 := none,
          error := some "No image generated" }
      | some url =>
        if url = "" then
          { status := 500, success := false, imageBase64 := none,
            error := some "No image generated" }
        else
          { status := 200, success := true, imageBase64 := extractImageBase64 url,
            error := none }

/-! ## Claim C4 -/

/-- An ok external response whose image URL is a data: URI without any
comma: split(',')[1] is undefined there. -/
def respDataNoComma : ExternalResponse := { status := 200, imageField := some "data:abc" }

/-- C4 counterexample: with the credential present, an ok external call and
a present image field whose URL is a comma-free data: URI, the handler
answers 200 with success true but without any imageBase64 field, so the
stated equivalence between a 200 success response carrying imageBase64 and
the three conditions of the claim fails at this input. -/
theorem handleGenerateImage_counterexample :
    (handleGenerateImage (some "k") respDataNoComma).status = 200 ∧
    (handleGenerateImage (some "k") respDataNoComma).success = true ∧
    (handleGenerateImage (some "k") respDataNoComma).imageBase64 = none ∧
    ¬ (((handleGenerateImage (some "k") respDataNoComma).status = 200 ∧
        (handleGenerateImage (some "k") respDataNoComma).success = true ∧
        ((handleGenerateImage (some "k") respDataNoComma).imageBase64).isSome = true)
       ↔ (¬ (some "k" : Option String) = none ∧
          responseOk respDataNoComma = true ∧
          respDataNoComma.imageField.isSome = true)) := by
  decide

/-- C4 amended: the classification is exhaustive and exclusive over the two
inputs the handler branches on. A missing credential gives a 500 with
success false independently of the network response, and an empty
credential string, falsy in the source, behaves identically; with a
present credential (the hypothesis k nonempty captures truthiness), an
external status of 429 gives 429, 402 gives 402, any other non-ok status
gives 500, an ok response without a truthy image URL gives 500, all with
success false; the response is a 200 with success true exactly when the ok
response carries a nonempty image URL, and in that case the imageBase64
field holds extractImageBase64 of that URL, present unless the URL is a
comma-free data: URI. -/
theorem handleGenerateImage_amended (k : String) (resp : ExternalResponse)
    (hk : ¬ k = "") :
    ((handleGenerateImage none resp).status = 500 ∧
     (handleGenerateImage none resp).success = false ∧
     ∀ resp' : ExternalResponse, handleGenerateImage none resp' = handleGenerateImage none resp)
    ∧ ((handleGenerateImage (some "") resp).status = 500 ∧
       (handleGenerateImage (some "") resp).success = false ∧
       ∀ resp' : ExternalResponse,
         handleGenerateImage (some "") resp' = handleGenerateImage none resp')
    ∧ (responseOk resp = false → resp.status = 429 →
        (handleGenerateImage (some k) resp).status = 429 ∧
        (handleGenerateImage (some k) resp).success = false)
    ∧ (responseOk resp = false → resp.status = 402 →
        (handleGenerateImage (some k) resp).status = 402 ∧
        (handleGenerateImage (some k) resp).success = false)
    ∧ (responseOk resp = false → ¬ resp.status = 429 → ¬ resp.status = 402 →
        (handleGenerateImage (some k) resp).status = 500 ∧
        (handleGenerateImage (some k) resp).success = false)
    ∧ (responseOk resp = true → (resp.imageField = none ∨ resp.imageField = some "") →
        (handleGenerateImage (some k) resp).status = 500 ∧
        (handleGenerateImage (some k) resp).success = false)
    ∧ (((handleGenerateImage (some k) resp).status = 200 ∧
        (handleGenerateImage (some k) resp).success = true)
       ↔ (responseOk resp = true ∧ ∃ url, resp.imageField = some url ∧ ¬ url = ""))
    ∧ (∀ url, responseOk resp = true → resp.imageField = some url → ¬ url = "" →
        (handleGenerateImage (some k) resp).imageBase64 = extractImageBase64 url) := by
  refine ⟨⟨rfl, rfl, fun r => rfl⟩, ⟨by simp [handleGenerateImage],
    by simp [handleGenerateImage], fun r => by simp [handleGenerateImage]⟩,
    ?_, ?_, ?_, ?_, ?_, ?_⟩
  · intro hok h429
    simp [handleGenerateImage, hk, hok, h429]
  · intro hok h402
    by_cases h429 : resp.status = 429
    · exact absurd (h429 ▸ h402) (by decide)
    · simp [handleGenerateImage, hk, hok, h429, h402]
  · intro hok h429 h402
    simp [handleGenerateImage, hk, hok, h429, h402]
  · intro hok hif
    rcases hif with hif | hif <;> simp [handleGenerateImage, hk, hok, hif]
  · constructor
    · rintro ⟨hst, hsc⟩
      by_cases hok : responseOk resp = true
      · cases hif : resp.imageField with
        | none => simp [handleGenerateImage, hk, hok, hif] at hst
        | some url =>
          by_cases hu : url = ""
          · simp [handleGenerateImage, hk, hok, hif, hu] at hst
          · exact ⟨hok, url, rfl, hu⟩
      · rw [Bool.not_eq_true] at hok
        by_cases h429 : resp.status = 429
        · simp [handleGenerateImage, hk, hok, h429] at hst
        · by_cases h402 : resp.status = 402
          · simp [handleGenerateImage, hk, hok, h429, h402] at hst
          · simp [handleGenerateImage, hk, hok, h429, h402] at hst
    · rintro ⟨hok, url, hif, hu⟩
      simp [handleGenerateImage, hk, hok, hif, hu]
  · intro url hok hif hu
    simp [handleGenerateImage, hk, hok, hif, hu]

/-- Witness for the amended C4 at a rate-limited external response. -/
theorem handleGenerateImage_amended_witness :
    ¬ ("k" : String) = "" ∧
    (responseOk { status := 429, imageField := none } = false →
      ({ status := 429, imageField := none } : ExternalResponse).status = 429 →
      (handleGenerateImage (some "k") { status := 429, imageField := none }).status = 429 ∧
      (handleGenerateImage (some "k") { status := 429, imageField := none }).success = false) :=
  ⟨by decide, (handleGenerateImage_amended "k" { status := 429, imageField := none } (by decide)).2.2.1⟩

/-! ## Website config store: data model
(src/hooks/useRestaurantWebsite.tsx, lines 5-79)

The hook is embedded as pure functions of the explicit pieces of state it
reads (the restaurant id and the in-memory config) and of the replies the
external store gives to the single operation each call issues. Store
operations are recorded in an output list so that theorems can speak about
which operations a call performs. -/

/-- The WebsiteConfig record of the hook, field for field. -/
structure WebsiteConfig where
  id : Option String
  restaurant_id : String
  is_published : Bool
  subdomain : Option String
  custom_domain : Option String
  theme_color : String
  secondary_color : String
  font_family : String
  logo_position : String
  hero_title : Option String
  hero_subtitle : Option String
  hero_image_url : Option String
  hero_cta_text : String
  hero_cta_enabled : Bool
  about_title : String
  about_content : Option String
  about_image_url : Option String
  about_enabled : Bool
  menu_title : String
  menu_enabled : Bool
  menu_display_style : String
  gallery_title : String
  gallery_images : List String
  gallery_enabled : Bool
  contact_title : String
  contact_enabled : Bool
  show_map : Bool
  show_opening_hours : Bool
  reservations_title : String
  reservations_enabled : Bool
  reservations_description : Option String
  show_social_links : Bool
  meta_title : Option String
  meta_description : Option String
  meta_keywords : Option (List String)
  google_analytics_id : Option String
deriving DecidableEq, Repr

/-- A Partial WebsiteConfig: each field is present or absent. -/
structure PartialConfig where
  id : Option (Option String) := none
  restaurant_id : Option String := none
  is_published : Option Bool := none
  subdomain : Option (Option String) := none
  custom_domain : Option (Option String) := none
  theme_color : Option String := none
  secondary_color : Option String := none
  font_family : Option String := none
  logo_position : Option String := none
  hero_title : Option (Option String) := none
  hero_subtitle : Option (Option String) := none
  hero_image_url : Option (Option String) := none
  hero_cta_text : Option String := none
  hero_cta_enabled : Option Bool := none
  about_title : Option String := none
  about_content : Option (Option String) := none
  about_image_url : Option (Option String) := none
  about_enabled : Option Bool := none
  menu_title : Option String := none
  menu_enabled : Option Bool := none
  menu_display_style : Option String := none
  gallery_title : Option String := none
  gallery_images : Option (List String) := none
  gallery_enabled : Option Bool := none
  contact_title : Option String := none
  contact_enabled : Option Bool := none
  show_map : Option Bool := none
  show_opening_hours : Option Bool := none
  reservations_title : Option String := none
  reservations_enabled : Option Bool := none
  reservations_description : Option (Option String) := none
  show_social_links : Option Bool := none
  meta_title : Option (Option String) := none
  meta_description : Option (Option String) := none
  meta_keywords : Option (Option (List String)) := none
  google_analytics_id : Option (Option String) := none
deriving DecidableEq, Repr

/-- The empty partial update. -/
def emptyPartial : PartialConfig := {}

/-- The JavaScript object spread of the save path: every field present in
the update wins over the current config. -/
def mergeConfig (c : WebsiteConfig) (u : PartialConfig) : WebsiteConfig where
  id := u.id.getD c.id
  restaurant_id := u.restaurant_id.getD c.restaurant_id
  is_published := u.is_published.getD c.is_published
  subdomain := u.subdomain.getD c.subdomain
  custom_domain := u.custom_domain.getD c.custom_domain
  theme_color := u.theme_color.getD c.theme_color
  secondary_color := u.secondary_color.getD c.secondary_color
  font_family := u.font_family.getD c.font_family
  logo_position := u.logo_position.getD c.logo_position
  hero_title := u.hero_title.getD c.hero_title
  hero_subtitle := u.hero_subtitle.getD c.hero_subtitle
  hero_image_url := u.hero_image_url.getD c.hero_image_url
  hero_cta_text := u.hero_cta_text.getD c.hero_cta_text
  hero_cta_enabled := u.hero_cta_enabled.getD c.hero_cta_enabled
  about_title := u.about_title.getD c.about_title
  about_content := u.about_content.getD c.about_content
  about_image_url := u.about_image_url.getD c.about_image_url
  about_enabled := u.about_enabled.getD c.about_enabled
  menu_title := u.menu_title.getD c.menu_title
  menu_enabled := u.menu_enabled.getD c.menu_enabled
  menu_display_style := u.menu_display_style.getD c.menu_display_style
  gallery_title := u.gallery_title.getD c.gallery_title
  gallery_images := u.gallery_images.getD c.gallery_images
  gallery_enabled := u.gallery_enabled.getD c.gallery_enabled
  contact_title := u.contact_title.getD c.contact_title
  contact_enabled := u.contact_enabled.getD c.contact_enabled
  show_map := u.show_map.getD c.show_map
  show_opening_hours := u.show_opening_hours.getD c.show_opening_hours
  reservations_title := u.reservations_title.getD c.reservations_title
  reservations_enabled := u.reservations_enabled.getD c.reservations_enabled
  reservations_description := u.reservations_description.getD c.reservations_description
  show_social_links := u.show_social_links.getD c.show_social_links
  meta_title := u.meta_title.getD c.meta_title
  meta_description := u.meta_description.getD c.meta_description
  meta_keywords := u.meta_keywords.getD c.meta_keywords
  google_analytics_id := u.google_analytics_id.getD c.google_analytics_id

/-- The defaultConfig object of the hook (lines 44-79), completed with the
given restaurant id; a freshly defaulted config has no id. -/
def defaultConfig (restaurant_id : String) : WebsiteConfig where
  id := none
  restaurant_id := restaurant_id
  is_published := false
  subdomain := none
  custom_domain := none
  theme_color := "#FF6B35"
  secondary_color := "#1A1A2E"
  font_family := "Inter"
  logo_position := "left"
  hero_title := none
  hero_subtitle := none
  hero_image_url := none
  hero_cta_text := "Réserver une table"
  hero_cta_enabled := true
  about_title := "À propos"
  about_content := none
  about_image_url := none
  about_enabled := true
  menu_title := "Notre Menu"
  menu_enabled := true
  menu_display_style := "grid"
  gallery_title := "Galerie"
  gallery_images := []
  gallery_enabled := true
  contact_title := "Contact"
  contact_enabled := true
  show_map := true
  show_opening_hours := true
  reservations_title := "Réservations"
  reservations_enabled := true
  reservations_description := none
  show_social_links := true
  meta_title := none
  meta_description := none
  meta_keywords := none
  google_analytics_id := none

/-- The column defaults documented by the restaurant_websites table of the
migration, as the row a fresh insert of only a restaurant id would carry;
the generated primary key and the timestamps live in the store and appear
as no id here. -/
def schemaDefaultRow (restaurant_id : String) : WebsiteConfig where
  id := none
  restaurant_id := restaurant_id
  is_published := false
  subdomain := none
  custom_domain := none
  theme_color := "#FF6B35"
  secondary_color := "#1A1A2E"
  font_family := "Inter"
  logo_position := "left"
  hero_title := none
  hero_subtitle := none
  hero_image_url := none
  hero_cta_text := "Réserver une table"
  hero_cta_enabled := true
  about_title := "À propos"
  about_content := none
  about_image_url := none
  about_enabled := true
  menu_title := "Notre Menu"
  menu_enabled := true
  menu_display_style := "grid"
  gallery_title := "Galerie"
  gallery_images := []
  gallery_enabled := true
  contact_title := "Contact"
  contact_enabled := true
  show_map := true
  show_opening_hours := true
  reservations_title := "Réservations"
  reservations_enabled := true
  reservations_description := none
  show_social_links := true
  meta_title := none
  meta_description := none
  meta_keywords := none
  google_analytics_id := none

/-! ## Website config store: operations
(src/hooks/useRestaurantWebsite.tsx, lines 93-196) -/

/-- One operation issued against the external store. -/
inductive StoreOp where
  | fetchWebsites (restaurantId : String)
  | insertRow (row : WebsiteConfig)
  | updateRow (id : String) (updates : PartialConfig)
  | deleteRow (id : String)
deriving DecidableEq, Repr

/-- Is the operation a write? -/
def isWriteOp : StoreOp → Bool
  | .fetchWebsites _ => false
  | .insertRow _ => true
  | .updateRow _ _ => true
  | .deleteRow _ => true

/-- Outcome of one saveConfig call: the operations issued, the returned
boolean and the in-memory config afterwards. -/
structure SaveOutcome where
  ops : List StoreOp
  ret : Bool
  config : Option WebsiteConfig
deriving DecidableEq, Repr

/-- Translation of saveConfig (lines 127-174). Guard: a falsy restaurant id
or an unloaded config returns false at once. With a known row id the call
issues one update against that id; otherwise one insert of the merged
config completed with the restaurant id, and the store answers with the id
of the created row. The merged config is installed only after the store
reply is a success; a store error returns false and keeps the old config.
The store replies are passed in as the two possible oracles, of which the
taken branch consults exactly one. -/
def saveConfig (restaurantId : Option String) (config : Option WebsiteConfig)
    (updates : PartialConfig)
    (updateReply : Except Unit Unit) (insertReply : Except Unit String) :
    SaveOutcome :=
  match restaurantId, config with
  | some rid, some cfg =>
    if rid = "" then { ops := [], ret := false, config := config }
    else
      let updatedConfig := mergeConfig cfg updates
      match cfg.id with
      | some i =>
        match updateReply with
        | .ok _ => { ops := [.updateRow i updates], ret := true, config := some updatedConfig }
        | .error _ => { ops := [.updateRow i updates], ret := false, config := some cfg }
      | none =>
        match insertReply with
        | .ok newId =>
          { ops := [.insertRow { updatedConfig with restaurant_id := rid }],
            ret := true, config := some { updatedConfig with id := some newId } }
        | .error _ =>
          { ops := [.insertRow { updatedConfig with restaurant_id := rid }],
            ret := false, config := some cfg }
  | _, _ => { ops := [], ret := false, config := config }

/-- Outcome of one loadWebsiteConfig call. -/
structure LoadOutcome where
  ops : List StoreOp
  config : Option WebsiteConfig
  errored : Bool
deriving DecidableEq, Repr

/-- The maybeSingle combinator of the store client: no row is fine, one row
is returned, more than one row is an error. -/
def maybeSingle (rows : List WebsiteConfig) : Except Unit (Option WebsiteConfig) :=
  match rows with
  | [] => .ok none
  | [r] => .ok (some r)
  | _ => .error ()

/-- Translation of loadWebsiteConfig (lines 93-125): nothing happens on a
falsy restaurant id; otherwise one select filtered by the restaurant id is
issued, read through maybeSingle; a store error is caught (errored, config
kept); a found row becomes the config; no row yields the in-memory default
config for this restaurant id. -/
def loadWebsiteConfig (restaurantId : Option String) (config : Option WebsiteConfig)
    (reply : Except Unit (List WebsiteConfig)) : LoadOutcome :=
  match restaurantId with
  | none => { ops := [], config := config, errored := false }
  | some rid =>
    if rid = "" then { ops := [], config := config, errored := false }
    else
      match reply with
      | .error _ => { ops := [.fetchWebsites rid], config := config, errored := true }
      | .ok rows =>
        match maybeSingle rows with
        | .error _ => { ops := [.fetchWebsites rid], config := config, errored := true }
        | .ok (some row) => { ops := [.fetchWebsites rid], config := some row, errored := false }
        | .ok none =>
          { ops := [.fetchWebsites rid], config := some (defaultConfig rid), errored := false }

/-- publishWebsite (lines 190-192): saveConfig with is_published true. -/
def publishWebsite (restaurantId : Option String) (config : Option WebsiteConfig)
    (updateReply : Except Unit Unit) (insertReply : Except Unit String) : SaveOutcome :=
  saveConfig restaurantId config { is_published := some true } updateReply insertReply

/-- unpublishWebsite (lines 194-196): saveConfig with is_published false. -/
def unpublishWebsite (restaurantId : Option String) (config : Option WebsiteConfig)
    (updateReply : Except Unit Unit) (insertReply : Except Unit String) : SaveOutcome :=
  saveConfig restaurantId config { is_published := some false } updateReply insertReply

/-! ## Claim C5 -/

/-- A loaded config whose row id is known. -/
def cfgWithIdA : WebsiteConfig := { defaultConfig "r1" with id := some "a" }

/-- A partial update that itself sets the id field. -/
def updSetIdZ : PartialConfig := { id := some (some "z") }

/-- C5 counterexample: with a known row id, a partial update that itself
carries an id is spread over the config after the update succeeds, so the
in-memory config does not preserve the id the update was keyed on. -/
theorem saveConfig_id_override_counterexample :
    cfgWithIdA.id = some "a" ∧
    (saveConfig (some "r1") (some cfgWithIdA) updSetIdZ (.ok ()) (.ok "w")).ret = true ∧
    (saveConfig (some "r1") (some cfgWithIdA) updSetIdZ (.ok ()) (.ok "w")).ops =
      [StoreOp.updateRow "a" updSetIdZ] ∧
    ¬ (saveConfig (some "r1") (some cfgWithIdA) updSetIdZ (.ok ()) (.ok "w")).config.map
        WebsiteConfig.id = some (some "a") := by
  decide

/-- C5 amended: with no known row id, saveConfig issues exactly one insert
of the merged config keyed by the restaurant id, and on success the
in-memory config carries the non-null id returned by the store; with a
known id it issues exactly one update against that id and, provided the
update does not itself set the id field, the in-memory config preserves
that id on success; and no code path of saveConfig ever issues a delete. -/
theorem saveConfig_insert_update (rid : String) (cfg : WebsiteConfig)
    (u : PartialConfig) (ur : Except Unit Unit) (ir : Except Unit String)
    (hrid : ¬ rid = "") :
    (cfg.id = none →
      (saveConfig (some rid) (some cfg) u ur ir).ops =
        [StoreOp.insertRow { mergeConfig cfg u with restaurant_id := rid }] ∧
      ∀ nid, ir = .ok nid →
        (saveConfig (some rid) (some cfg) u ur ir).ret = true ∧
        (saveConfig (some rid) (some cfg) u ur ir).config =
          some { mergeConfig cfg u with id := some nid } ∧
        (saveConfig (some rid) (some cfg) u ur ir).config.map WebsiteConfig.id =
          some (some nid))
    ∧ (∀ i, cfg.id = some i →
        (saveConfig (some rid) (some cfg) u ur ir).ops = [StoreOp.updateRow i u] ∧
        (u.id = none → ur = .ok () →
          (saveConfig (some rid) (some cfg) u ur ir).ret = true ∧
          (saveConfig (some rid) (some cfg) u ur ir).config.map WebsiteConfig.id =
            some (some i)))
    ∧ (∀ (rid' : Option String) (cfg' : Option WebsiteConfig) (u' : PartialConfig)
        (ur' : Except Unit Unit) (ir' : Except Unit String) (d : String),
        ¬ StoreOp.deleteRow d ∈ (saveConfig rid' cfg' u' ur' ir').ops) := by
  refine ⟨?_, ?_, ?_⟩
  · intro hid
    constructor
    · cases ir <;> simp [saveConfig, hrid, hid]
    · intro nid hir
      subst hir
      simp [saveConfig, hrid, hid]
  · intro i hid
    constructor
    · cases ur <;> simp [saveConfig, hrid, hid]
    · intro hu hur
      subst hur
      simp [saveConfig, hrid, hid, mergeConfig, hu]
  · intro rid' cfg' u' ur' ir' d
    cases rid' with
    | none => simp [saveConfig]
    | some r =>
      cases cfg' with
      | none => simp [saveConfig]
      | some c =>
        by_cases hr : r = ""
        · simp [saveConfig, hr]
        · cases hcid : c.id with
          | some i => cases ur' <;> simp [saveConfig, hr, hcid]
          | none => cases ir' <;> simp [saveConfig, hr, hcid]

/-- Witness for the amended C5: first save of a freshly defaulted config. -/
theorem saveConfig_insert_update_witness :
    ¬ ("r1" : String) = "" ∧
    ((defaultConfig "r1").id = none →
      (saveConfig (some "r1") (some (defaultConfig "r1")) emptyPartial (.ok ()) (.ok "w")).ops =
        [StoreOp.insertRow
          { mergeConfig (defaultConfig "r1") emptyPartial with restaurant_id := "r1" }] ∧
      ∀ nid, (.ok "w" : Except Unit String) = .ok nid →
        (saveConfig (some "r1") (some (defaultConfig "r1")) emptyPartial (.ok ()) (.ok "w")).ret = true ∧
        (saveConfig (some "r1") (some (defaultConfig "r1")) emptyPartial (.ok ()) (.ok "w")).config =
          some { mergeConfig (defaultConfig "r1") emptyPartial with id := some nid } ∧
        (saveConfig (some "r1") (some (defaultConfig "r1")) emptyPartial (.ok ()) (.ok "w")).config.map
          WebsiteConfig.id = some (some nid)) :=
  ⟨by decide,
   (saveConfig_insert_update "r1" (defaultConfig "r1") emptyPartial (.ok ()) (.ok "w")
     (by decide)).1⟩

/-! ## Claim C9 -/

/-- A loaded config with a known row id, for the atomicity claim. -/
def cfgKnownId : WebsiteConfig := { defaultConfig "r2" with id := some "b" }

/-- C9 counterexample: on a successful first save the installed config is
the merged config completed with the id the store returned, which differs
from the plain merge of the previous config with the updates. -/
theorem saveConfig_atomic_counterexample :
    (saveConfig (some "r1") (some (defaultConfig "r1")) emptyPartial (.ok ()) (.ok "newid")).ret
      = true ∧
    ¬ (saveConfig (some "r1") (some (defaultConfig "r1")) emptyPartial (.ok ()) (.ok "newid")).config
        = some (mergeConfig (defaultConfig "r1") emptyPartial) := by
  decide

/-- C9 amended: saveConfig is atomic for the in-memory config. On any store
failure it returns false and keeps the config exactly as it was; on a
successful update it returns true and installs the previous config merged
with the updates; on a successful insert it returns true and installs the
merge additionally completed with the id the store returned. -/
theorem saveConfig_atomic (rid : String) (cfg : WebsiteConfig) (u : PartialConfig)
    (ur : Except Unit Unit) (ir : Except Unit String) (hrid : ¬ rid = "") :
    (cfg.id = none → ir = .error () →
      (saveConfig (some rid) (some cfg) u ur ir).ret = false ∧
      (saveConfig (some rid) (some cfg) u ur ir).config = some cfg)
    ∧ (∀ i, cfg.id = some i → ur = .error () →
        (saveConfig (some rid) (some cfg) u ur ir).ret = false ∧
        (saveConfig (some rid) (some cfg) u ur ir).config = some cfg)
    ∧ (∀ i, cfg.id = some i → ur = .ok () →
        (saveConfig (some rid) (some cfg) u ur ir).ret = true ∧
        (saveConfig (some rid) (some cfg) u ur ir).config = some (mergeConfig cfg u))
    ∧ (∀ nid, cfg.id = none → ir = .ok nid →
        (saveConfig (some rid) (some cfg) u ur ir).ret = true ∧
        (saveConfig (some rid) (some cfg) u ur ir).config =
          some { mergeConfig cfg u with id := some nid }) := by
  refine ⟨?_, ?_, ?_, ?_⟩
  · intro hid hir
    subst hir
    simp [saveConfig, hrid, hid]
  · intro i hid hur
    subst hur
    simp [saveConfig, hrid, hid]
  · intro i hid hur
    subst hur
    simp [saveConfig, hrid, hid]
  · intro nid hid hir
    subst hir
    simp [saveConfig, hrid, hid]

/-- Witness for the amended C9: a failing update leaves the config alone. -/
theorem saveConfig_atomic_witness :
    ¬ ("r2" : String) = "" ∧
    (∀ i, cfgKnownId.id = some i → (.error () : Except Unit Unit) = .error () →
      (saveConfig (some "r2") (some cfgKnownId) emptyPartial (.error ()) (.ok "w")).ret = false ∧
      (saveConfig (some "r2") (some cfgKnownId) emptyPartial (.error ()) (.ok "w")).config =
        some cfgKnownId) :=
  ⟨by decide,
   (saveConfig_atomic "r2" cfgKnownId emptyPartial (.error ()) (.ok "w") (by decide)).2.1⟩

/-! ## Claim C7 -/

/-- C7: publishWebsite and unpublishWebsite are exactly saveConfig with the
single-field update is_published true, respectively false: same store
operations, same resulting in-memory config, same returned boolean, for
every state and store reply. -/
theorem publish_unpublish_sugar :
    ∀ (rid : Option String) (cfg : Option WebsiteConfig)
      (ur : Except Unit Unit) (ir : Except Unit String),
      publishWebsite rid cfg ur ir =
        saveConfig rid cfg { emptyPartial with is_published := some true } ur ir ∧
      unpublishWebsite rid cfg ur ir =
        saveConfig rid cfg { emptyPartial with is_published := some false } ur ir ∧
      (publishWebsite rid cfg ur ir).ops =
        (saveConfig rid cfg { emptyPartial with is_published := some true } ur ir).ops ∧
      (publishWebsite rid cfg ur ir).config =
        (saveConfig rid cfg { emptyPartial with is_published := some true } ur ir).config ∧
      (publishWebsite rid cfg ur ir).ret =
        (saveConfig rid cfg { emptyPartial with is_published := some true } ur ir).ret ∧
      (unpublishWebsite rid cfg ur ir).ops =
        (saveConfig rid cfg { emptyPartial with is_published := some false } ur ir).ops ∧
      (unpublishWebsite rid cfg ur ir).config =
        (saveConfig rid cfg { emptyPartial with is_published := some false } ur ir).config ∧
      (unpublishWebsite rid cfg ur ir).ret =
        (saveConfig rid cfg { emptyPartial with is_published := some false } ur ir).ret :=
  fun _ _ _ _ => ⟨rfl, rfl, rfl, rfl, rfl, rfl, rfl, rfl⟩

/-! ## Claim C10 -/

/-- C10: the guards are silent no-ops. saveConfig with no restaurant id, or
with no loaded config, returns false, issues no store operation and leaves
the in-memory config untouched; loadWebsiteConfig with no restaurant id
issues no fetch and changes nothing. -/
theorem hook_guards :
    (∀ (cfg : Option WebsiteConfig) (u : PartialConfig) (ur : Except Unit Unit)
        (ir : Except Unit String),
      saveConfig none cfg u ur ir = { ops := [], ret := false, config := cfg })
    ∧ (∀ (rid : Option String) (u : PartialConfig) (ur : Except Unit Unit)
        (ir : Except Unit String),
      saveConfig rid none u ur ir = { ops := [], ret := false, config := none })
    ∧ (∀ (cfg : Option WebsiteConfig) (reply : Except Unit (List WebsiteConfig)),
      loadWebsiteConfig none cfg reply = { ops := [], config := cfg, errored := false }) := by
  refine ⟨fun cfg u ur ir => rfl, fun rid u ur ir => ?_, fun cfg reply => rfl⟩
  cases rid <;> rfl

/-! ## Claim C6 -/

/-- C6: loadWebsiteConfig issues exactly one fetch and never a write; the
maybeSingle read makes more than one row an error rather than a loaded
config, so at most one row is ever taken; and an absent row is no error:
the config becomes the in-memory default for this restaurant id, with no
id, is_published false and exactly the column defaults documented by the
table schema. -/
theorem loadWebsiteConfig_absent_default (rid : String) (cfg0 : Option WebsiteConfig)
    (hrid : ¬ rid = "") :
    (∀ reply : Except Unit (List WebsiteConfig),
      (loadWebsiteConfig (some rid) cfg0 reply).ops = [StoreOp.fetchWebsites rid])
    ∧ (∀ (reply : Except Unit (List WebsiteConfig)) (op : StoreOp),
        op ∈ (loadWebsiteConfig (some rid) cfg0 reply).ops → isWriteOp op = false)
    ∧ (∀ rows : List WebsiteConfig, 2 ≤ rows.length →
        (loadWebsiteConfig (some rid) cfg0 (.ok rows)).errored = true ∧
        (loadWebsiteConfig (some rid) cfg0 (.ok rows)).config = cfg0)
    ∧ ((loadWebsiteConfig (some rid) cfg0 (.ok [])).config = some (defaultConfig rid) ∧
       (loadWebsiteConfig (some rid) cfg0 (.ok [])).errored = false ∧
       (defaultConfig rid).id = none ∧
       (defaultConfig rid).is_published = false ∧
       (defaultConfig rid).restaurant_id = rid ∧
       defaultConfig rid = schemaDefaultRow rid) := by
  refine ⟨?_, ?_, ?_, ?_⟩
  · intro reply
    cases reply with
    | error e => simp [loadWebsiteConfig, hrid]
    | ok rows =>
      cases hms : maybeSingle rows with
      | error u => simp [loadWebsiteConfig, hrid, hms]
      | ok v => cases v <;> simp [loadWebsiteConfig, hrid, hms]
  · intro reply op hop
    cases reply with
    | error e =>
      simp [loadWebsiteConfig, hrid] at hop
      simp [hop, isWriteOp]
    | ok rows =>
      cases hms : maybeSingle rows with
      | error u =>
        simp [loadWebsiteConfig, hrid, hms] at hop
        simp [hop, isWriteOp]
      | ok v =>
        cases v <;> simp [loadWebsiteConfig, hrid, hms] at hop <;>
          simp [hop, isWriteOp]
  · intro rows hlen
    cases rows with
    | nil => simp at hlen
    | cons a t =>
      cases t with
      | nil => simp at hlen
      | cons b t2 => simp [loadWebsiteConfig, hrid, maybeSingle]
  · exact ⟨by simp [loadWebsiteConfig, hrid, maybeSingle], by simp [loadWebsiteConfig, hrid, maybeSingle],
      rfl, rfl, rfl, rfl⟩

/-- Witness for C6: loading a restaurant with no stored row. -/
theorem loadWebsiteConfig_absent_default_witness :
    ¬ ("r9" : String) = "" ∧
    ((loadWebsiteConfig (some "r9") none (.ok [])).config = some (defaultConfig "r9") ∧
     (loadWebsiteConfig (some "r9") none (.ok [])).errored = false ∧
     (defaultConfig "r9").id = none ∧
     (defaultConfig "r9").is_published = false ∧
     (defaultConfig "r9").restaurant_id = "r9" ∧
     defaultConfig "r9" = schemaDefaultRow "r9") :=
  ⟨by decide, (loadWebsiteConfig_absent_default "r9" none (by decide)).2.2.2⟩

/-! ## Public site renderer and get_public_website
(src/pages/RestaurantSite.tsx, lines 33-80, and the SQL routine
get_public_website of the migration) -/

/-- The restaurant row, abstracted to the fields the public-site contract
inspects. -/
structure Restaurant where
  id : String
  name : String
  is_active : Bool
deriving DecidableEq, Repr

/-- The denormalized record get_public_website returns per row. -/
structure PublicWebsiteRecord where
  website_config : WebsiteConfig
  restaurant_data : Restaurant
deriving DecidableEq, Repr

/-- The store contents the SQL routine reads. -/
structure Database where
  websites : List WebsiteConfig
  restaurants : List Restaurant
deriving DecidableEq, Repr

/-- The WHERE clause of get_public_website: matching subdomain, published
website, active restaurant. -/
def publicFilter (sub : String) (rec : PublicWebsiteRecord) : Bool :=
  decide (rec.website_config.subdomain = some sub) &&
  rec.website_config.is_published && rec.restaurant_data.is_active

/-- The JOIN of get_public_website: every website row paired with every
restaurant row carrying its restaurant id. -/
def joinWebsites (db : Database) : List PublicWebsiteRecord :=
  db.websites.flatMap fun rw =>
    (db.restaurants.filter fun r => decide (r.id = rw.restaurant_id)).map fun r =>
      { website_config := rw, restaurant_data := r }

/-- Translation of the SQL routine get_public_website: the join filtered to
the requested subdomain, published websites and active restaurants only. -/
def get_public_website (db : Database) (website_subdomain : String) :
    List PublicWebsiteRecord :=
  (joinWebsites db).filter (publicFilter website_subdomain)

/-- The state RestaurantSite ends in after its load: the held record, if
any, and the error message, if any; the component renders the 404 screen
whenever an error is set or no record is held. -/
structure SiteLoadResult where
  data : Option PublicWebsiteRecord
  error : Option String
deriving DecidableEq, Repr

/-- Translation of loadWebsite of RestaurantSite: a falsy subdomain is not
found without any call; a store error gives the loading-error message; a
nonempty result installs its first record; an empty result is not found. -/
def loadWebsite (subdomain : Option String)
    (reply : Except Unit (List PublicWebsiteRecord)) : SiteLoadResult :=
  match subdomain with
  | none => { data := none, error := some "Site non trouvé" }
  | some s =>
    if s = "" then { data := none, error := some "Site non trouvé" }
    else
      match reply with
      | .error _ => { data := none, error := some "Erreur lors du chargement du site" }
      | .ok result =>
        match result with
        | r :: _ => { data := some r, error := none }
        | [] => { data := none, error := some "Site non trouvé" }

/-- The render condition of the 404 screen: error set or no data held. -/
def rendersNotFound (res : SiteLoadResult) : Bool :=
  res.error.isSome || res.data.isNone

theorem mem_joinWebsites (db : Database) (rec : PublicWebsiteRecord) :
    rec ∈ joinWebsites db ↔
      rec.website_config ∈ db.websites ∧ rec.restaurant_data ∈ db.restaurants ∧
      rec.restaurant_data.id = rec.website_config.restaurant_id := by
  unfold joinWebsites
  constructor
  · intro h
    obtain ⟨rw, hrw, hmem⟩ := List.mem_flatMap.mp h
    obtain ⟨r, hrfil, heq⟩ := List.mem_map.mp hmem
    obtain ⟨hr, hid⟩ := List.mem_filter.mp hrfil
    subst heq
    exact ⟨hrw, hr, of_decide_eq_true hid⟩
  · rintro ⟨hrw, hr, hid⟩
    refine List.mem_flatMap.mpr ⟨rec.website_config, hrw, ?_⟩
    refine List.mem_map.mpr ⟨rec.restaurant_data, ?_, rfl⟩
    exact List.mem_filter.mpr ⟨hr, decide_eq_true hid⟩

/-! ## Claim C8 -/

/-- C8: the public-site fetch holds a record only when a website row with
the requested subdomain exists, is published, and belongs to an active
restaurant, and every held record satisfies all three conditions; when no
row in the store satisfies them, the renderer holds no record and ends in
the not-found state. -/
theorem public_site_only_published_active (db : Database) (sub : String)
    (hsub : ¬ sub = "") :
    (∀ rec, (loadWebsite (some sub) (.ok (get_public_website db sub))).data = some rec →
      rec.website_config ∈ db.websites ∧
      rec.restaurant_data ∈ db.restaurants ∧
      rec.restaurant_data.id = rec.website_config.restaurant_id ∧
      rec.website_config.subdomain = some sub ∧
      rec.website_config.is_published = true ∧
      rec.restaurant_data.is_active = true)
    ∧ ((¬ ∃ rw ∈ db.websites, rw.subdomain = some sub ∧ rw.is_published = true ∧
          ∃ r ∈ db.restaurants, r.id = rw.restaurant_id ∧ r.is_active = true) →
        (loadWebsite (some sub) (.ok (get_public_website db sub))).data = none ∧
        rendersNotFound (loadWebsite (some sub) (.ok (get_public_website db sub))) = true) := by
  constructor
  · intro rec hrec
    have hmem : rec ∈ get_public_website db sub := by
      cases hg : get_public_website db sub with
      | nil => rw [hg] at hrec; simp [loadWebsite, hsub] at hrec
      | cons a t =>
        rw [hg] at hrec
        simp [loadWebsite, hsub] at hrec
        rw [← hrec]
        exact List.mem_cons_self a t
    unfold get_public_website at hmem
    obtain ⟨hjoin, hpred⟩ := List.mem_filter.mp hmem
    obtain ⟨hrw, hr, hid⟩ := (mem_joinWebsites db rec).mp hjoin
    have hp := hpred
    simp [publicFilter] at hp
    exact ⟨hrw, hr, hid, hp.1.1, hp.1.2, hp.2⟩
  · intro hno
    have hempty : get_public_website db sub = [] := by
      unfold get_public_website
      rw [List.filter_eq_nil_iff]
      intro rec hrec
      obtain ⟨hrw, hr, hid⟩ := (mem_joinWebsites db rec).mp hrec
      intro hp
      simp [publicFilter] at hp
      exact hno ⟨rec.website_config, hrw, hp.1.1, hp.1.2,
        rec.restaurant_data, hr, hid, hp.2⟩
    rw [hempty]
    exact ⟨by simp [loadWebsite, hsub], by simp [loadWebsite, hsub, rendersNotFound]⟩

/-- A store holding one unpublished website of an inactive restaurant. -/
def dbUnpublished : Database where
  websites := [{ defaultConfig "r1" with subdomain := some "foo", id := some "w1" }]
  restaurants := [{ id := "r1", name := "Chez A", is_active := false }]

/-- Witness for C8: requesting the subdomain of the unpublished, inactive
site ends in the not-found state. -/
theorem public_site_only_published_active_witness :
    ¬ ("foo" : String) = "" ∧
    ((¬ ∃ rw ∈ dbUnpublished.websites, rw.subdomain = some "foo" ∧ rw.is_published = true ∧
        ∃ r ∈ dbUnpublished.restaurants, r.id = rw.restaurant_id ∧ r.is_active = true) →
      (loadWebsite (some "foo") (.ok (get_public_website dbUnpublished "foo"))).data = none ∧
      rendersNotFound (loadWebsite (some "foo") (.ok (get_public_website dbUnpublished "foo"))) = true) :=
  ⟨by decide, (public_site_only_published_active dbUnpublished "foo" (by decide)).2⟩
